import Mathlib

/-!
Shallow embedding of the GoodBotBot Twitter bot (src/index.py) and proofs
about its logical core: configuration loading, candidate-tweet selection,
reply choosing, the age gate and the reply dispatcher.

Modelling conventions:
- Python dictionaries built from a fixed set of keys become Lean structures
  whose fields are `Option`-valued (absent key = `none`).
- Python exceptions become an explicit `BotError` inductive returned through
  `Except`.
- Tweet objects returned by the Tweepy client become the `Tweet` structure.
  The code performs a dynamic `hasattr(tweet, 'retweet_status')` check
  followed by a truthiness test; we model the pair
  (attribute present, attribute truthy) as a field `retweet_status : Option
  Bool` (`none` = attribute absent, `some b` = present with truthiness `b`).
- Python's substring test `needle in haystack` is modelled by `pyIn` over the
  lists of characters.
- Python's `int(string)` conversion of an environment value is modelled by
  `pyInt` (optional surrounding whitespace, optional sign, a nonempty run of
  decimal digits; the underscore digit-grouping accepted by Python is not
  needed by any input considered here).
- `random.seed()` / `random.sample(messages, 1)[0]` draw one element of the
  remaining message pool; the draw is modelled by an arbitrary index `r : Nat`
  reduced modulo the pool size, which covers every choice the sampler can
  make. `random.sample` raises `ValueError` on an empty pool, modelled by
  `BotError.sampleError`.
- Timestamps (`tweet.created_at` with UTC reattached, and `now`) are integer
  seconds on a common UTC axis; `timedelta.total_seconds()` is their
  difference.
-/

/-- Errors raised by the program: `ConfigurationException` (with the list of
missing external keys), `NoTimelineException`, Python's `ValueError` (raised
by `int()` on a malformed string and by `random.sample` on an
undersized population; the sample case is kept separate as `sampleError`). -/
inductive BotError where
  | configurationError (missing : List String)
  | noTimeline
  | valueError
  | sampleError
deriving DecidableEq, Repr

/-- Model of a Tweepy status object, restricted to the attributes the program
reads. `retweet_status` models the dynamically checked attribute of the same
name: `none` when the attribute is absent, `some b` when present with
truthiness `b`. `created_at` is in integer seconds UTC (the code reattaches
UTC to the naive datetime before using it). -/
structure Tweet where
  id : Int
  author_screen_name : String
  text : String
  source : String
  retweet_status : Option Bool
  in_reply_to_status_id : Option Int
  created_at : Int
deriving DecidableEq, Repr

/-- Model of Python `needle.isPrefix-like` test on character lists: does
`needle` start `haystack`? Helper for `pyIn`. -/
def leadMatch : List Char → List Char → Bool
  | [], _ => true
  | _ :: _, [] => false
  | a :: as, b :: bs => a == b && leadMatch as bs

/-- Does `needle` occur as a contiguous run inside `haystack`? -/
def occursAt : List Char → List Char → Bool
  | needle, [] => needle.isEmpty
  | needle, b :: bs => leadMatch needle (b :: bs) || occursAt needle bs

/-- Model of Python's substring containment test `needle in haystack`. -/
def pyIn (needle haystack : String) : Bool :=
  occursAt needle.data haystack.data

/-- Decimal digit test for `pyInt`. -/
def isDigitChar (c : Char) : Bool := '0' ≤ c && c ≤ '9'

/-- Value of a nonempty run of decimal digits. -/
def digitsToNat (ds : List Char) : Nat :=
  ds.foldl (fun n c => 10 * n + (c.toNat - '0'.toNat)) 0

/-- Strip leading and trailing whitespace from a character list. -/
def stripSpace (l : List Char) : List Char :=
  ((l.dropWhile Char.isWhitespace).reverse.dropWhile Char.isWhitespace).reverse

/-- Model of Python's `int(s)` on a string: optional surrounding whitespace,
optional sign, then a nonempty run of decimal digits; `none` models the
`ValueError` raised on anything else. -/
def pyInt (s : String) : Option Int :=
  match stripSpace s.data with
  | '+' :: ds => if ds ≠ [] ∧ ds.all isDigitChar then some (digitsToNat ds) else none
  | '-' :: ds => if ds ≠ [] ∧ ds.all isDigitChar then some (-(digitsToNat ds : Int)) else none
  | ds => if ds ≠ [] ∧ ds.all isDigitChar then some (digitsToNat ds) else none

/-- Default maximum age of a tweet to which the bot will reply, in minutes
(`DEFAULT_MAXAGE = 6 * 60`). -/
def DEFAULT_MAXAGE : Int := 6 * 60

/-- The fixed message pool (`MESSAGES`). The source keeps it in a `frozenset`;
we keep the literal order, which is irrelevant to every property proved (the
random draw index ranges over the whole pool). -/
def MESSAGES : List String := [
  "Admirable bot.",
  "Amazing bot.",
  "Awesome bot.",
  "Brilliant bot.",
  "Cool bot.",
  "Excellent bot.",
  "Exceptional bot.",
  "Extraordinary bot.",
  "Fantastic bot.",
  "Good bot.",
  "Grandiose bot.",
  "Impressive bot.",
  "Incredible bot.",
  "Magnificient bot.",
  "Marvelous bot.",
  "Noble bot.",
  "Outstanding bot.",
  "Phenomenal bot.",
  "Remarkable bot.",
  "Sensational bot.",
  "Sublime bot.",
  "Superb bot.",
  "Wonderful bot.",
  "The best bot.",
  "Thank you for your assiduity.",
  "Thank you for your conscientiousness.",
  "Thank you for your diligence.",
  "Thank you for your generous effort.",
  "Thanks!",
  "Much thanks.",
  "Thanks so much.",
  "Thank you for posting this.",
  "Good job.",
  "Splendid job.",
  "I appreciate your effort.",
  "I appreciate your diligence.",
  "I appreciate your work.",
  "I am grateful for your work.",
  "Well done.",
  "Continue your great work."
]

/-- The environment dictionary, restricted to the seven variables the program
reads (`environ.get` of any of them; `none` = variable unset). -/
structure Environ where
  bot_app_key : Option String
  bot_app_secret : Option String
  bot_access_token : Option String
  bot_token_secret : Option String
  bot_target : Option String
  bot_source : Option String
  bot_maxage : Option String
deriving DecidableEq, Repr

/-- The configuration dictionary, restricted to the seven keys
`load_configuration` manages (`none` = key absent from the dict). `maxage`
holds the already-`int()`-converted value. -/
structure Config where
  app_key : Option String
  app_secret : Option String
  access_token : Option String
  token_secret : Option String
  target : Option String
  source : Option String
  maxage : Option Int
deriving DecidableEq, Repr

/-- The empty initial configuration dictionary (`config = {}`). -/
def emptyConfig : Config := ⟨none, none, none, none, none, none, none⟩

/-- One step of the read loop for a string-valued option: when the
environment value is present it overwrites the config entry. -/
def read_option_str (v : Option String) (cur : Option String) : Option String :=
  match v with
  | some s => some s
  | none => cur

/-- The read loop of `load_configuration`: copy each present environment
value into the config dict, converting `BOT_MAXAGE` with `int()`; `none`
models the `ValueError` escaping when that conversion fails. -/
def read_options (environ : Environ) (config : Config) : Option Config :=
  let k := read_option_str environ.bot_app_key config.app_key
  let s := read_option_str environ.bot_app_secret config.app_secret
  let a := read_option_str environ.bot_access_token config.access_token
  let t := read_option_str environ.bot_token_secret config.token_secret
  let g := read_option_str environ.bot_target config.target
  let c := read_option_str environ.bot_source config.source
  match environ.bot_maxage with
  | none => some ⟨k, s, a, t, g, c, config.maxage⟩
  | some v =>
    match pyInt v with
    | none => none
    | some n => some ⟨k, s, a, t, g, c, some n⟩

/-- Configuration defaults (`set_defaults`): when `config.get('maxage',
None)` is falsy — the key is absent or its integer value is `0` — set it to
`DEFAULT_MAXAGE`. -/
def set_defaults (config : Config) : Config :=
  if config.maxage = none ∨ config.maxage = some 0 then
    ⟨config.app_key, config.app_secret, config.access_token, config.token_secret,
     config.target, config.source, some DEFAULT_MAXAGE⟩
  else config

/-- The missing-key scan of `load_configuration`: the external names of the
options absent from the config dict, in the order of `config_options`. -/
def missing_options (config : Config) : List String :=
  (if config.app_key = none then ["BOT_APP_KEY"] else []) ++
  (if config.app_secret = none then ["BOT_APP_SECRET"] else []) ++
  (if config.access_token = none then ["BOT_ACCESS_TOKEN"] else []) ++
  (if config.token_secret = none then ["BOT_TOKEN_SECRET"] else []) ++
  (if config.target = none then ["BOT_TARGET"] else []) ++
  (if config.source = none then ["BOT_SOURCE"] else []) ++
  (if config.maxage = none then ["BOT_MAXAGE"] else [])

/-- Model of `load_configuration(config, environ)`: read present environment
values (converting `maxage` to an integer), apply defaults, then raise
`ConfigurationException` with every missing external key if any required key
is still absent, else return the config dict. -/
def load_configuration (environ : Environ) (config : Config) : Except BotError Config :=
  match read_options environ config with
  | none => .error .valueError
  | some c0 =>
    let c := set_defaults c0
    let missing := missing_options c
    if missing = [] then .ok c else .error (.configurationError missing)

/-- Model of `pretty_duration(seconds)` for a nonnegative integer number of
seconds (the only inputs the properties below concern; `//` on nonnegative
integers is `Nat` division). -/
def pretty_duration (seconds : Nat) : String :=
  if seconds < 2 then toString seconds ++ " second"
  else if seconds < 120 then toString seconds ++ " seconds"
  else if seconds < 7200 then toString (seconds / 60) ++ " minutes"
  else if seconds < 48 * 3600 then toString (seconds / 3600) ++ " hours"
  else toString (seconds / (24 * 3600)) ++ " days"

/-- Model of `get_latest_candidate_tweet`: scan the fetched timeline in
order and return the first tweet that passes the four `continue` filters. -/
def get_latest_candidate_tweet (tweets : List Tweet) (target source : String) : Option Tweet :=
  match tweets with
  | [] => none
  | tweet :: rest =>
    if tweet.author_screen_name != target then get_latest_candidate_tweet rest target source
    else if tweet.source != source then get_latest_candidate_tweet rest target source
    else if tweet.retweet_status.getD false then get_latest_candidate_tweet rest target source
    else if !(pyIn "Alt/title text:" tweet.text) then get_latest_candidate_tweet rest target source
    else some tweet

/-- The loop of `choose_reply` over the controlled account's own tweets:
return `none` («already replied») as soon as an own tweet replying to the
target is found, otherwise thread the progressively narrowed message set
(each iteration filters out messages occurring in the target tweet's text)
and return what remains. -/
def choose_reply_loop (tweet : Tweet) : List Tweet → List String → Option (List String)
  | [], messages => some messages
  | mytweet :: rest, messages =>
    if mytweet.in_reply_to_status_id = some tweet.id then none
    else choose_reply_loop tweet rest (messages.filter (fun x => !(pyIn x tweet.text)))

/-- Model of `choose_reply(api, tweet)`: `mytweets` is what
`api.user_timeline(count=20)` returned and `r` models the random draw.
Raises `NoTimelineException` on an empty own timeline; returns `.ok none`
when an own tweet already replies to the target; otherwise draws from the
narrowed message pool (`sampleError` models `random.sample` on an empty
pool). -/
def choose_reply (tweet : Tweet) (mytweets : List Tweet) (r : Nat) : Except BotError (Option String) :=
  if mytweets.length < 1 then .error .noTimeline
  else
    match choose_reply_loop tweet mytweets MESSAGES with
    | none => .ok none
    | some messages =>
      if messages.isEmpty then .error .sampleError
      else .ok (some (messages.getD (r % messages.length) ""))

/-- Model of `time_since_tweet(tweet, now)`: seconds elapsed between the
tweet's creation time (UTC reattached) and `now`, clamped to `0` when
negative. -/
def time_since_tweet (tweet : Tweet) (now : Int) : Int :=
  let seconds := now - tweet.created_at
  if seconds < 0 then 0 else seconds

/-- Model of `choose_candidate_tweet(api, config)`: find the latest candidate
tweet, reject it when older than `maxage` minutes, then keep it only when
`choose_reply` picks a (truthy, hence nonempty) reply for it. -/
def choose_candidate_tweet (tweets mytweets : List Tweet) (target source : String)
    (maxage : Int) (now : Int) (r : Nat) : Except BotError (Option Tweet) :=
  match get_latest_candidate_tweet tweets target source with
  | none => .ok none
  | some candidate =>
    let seconds_since := time_since_tweet candidate now
    if seconds_since > maxage * 60 then .ok none
    else
      match choose_reply candidate mytweets r with
      | .error e => .error e
      | .ok none => .ok none
      | .ok (some reply) => if reply = "" then .ok none else .ok (some candidate)

/-- The dictionary `reply_to_tweet` returns (`retval`): the original tweet id
string, the dry-run flag, and the `reply-tweet` entry that is only added
after an actual send. -/
structure RetVal where
  tweet_id : String
  dry_run : Bool
  reply_tweet : Option String
deriving DecidableEq, Repr

/-- One `api.update_status` call: the status text and the
`in_reply_to_status_id` argument. -/
structure SentStatus where
  status : String
  reply_to_id : Int
deriving DecidableEq, Repr

/-- Model of `reply_to_tweet(api, tweet_id, dry_run)`. `getStatus` models
`api.get_status` and `mytweets`, `r` feed the inner `choose_reply`. Returns
the result dictionary together with the list of `update_status` calls made
(empty = nothing submitted). `int(tweet_id)` failing raises `ValueError`. -/
def reply_to_tweet (getStatus : Int → Tweet) (mytweets : List Tweet) (r : Nat)
    (tweet_id : String) (dry_run : Bool) : Except BotError (RetVal × List SentStatus) :=
  match pyInt tweet_id with
  | none => .error .valueError
  | some num_id =>
    let tweet := getStatus num_id
    let retval : RetVal := ⟨tweet_id, dry_run, none⟩
    match choose_reply tweet mytweets r with
    | .error e => .error e
    | .ok none => .ok (retval, [])
    | .ok (some reply) =>
      if reply = "" then .ok (retval, [])
      else if dry_run then .ok (retval, [])
      else
        .ok (⟨tweet_id, dry_run, some reply⟩,
             [⟨"@" ++ tweet.author_screen_name ++ " " ++ reply, num_id⟩])

/-- The message pool after the narrowing `choose_reply` performs: messages of
`MESSAGES` that do not occur in the target tweet's text. -/
def remaining_messages (tweet : Tweet) : List String :=
  MESSAGES.filter (fun x => !(pyIn x tweet.text))

/-! Helper lemmas. -/

/-- An in-bounds `getD` is a member of the list. -/
theorem getD_mem_of_lt (l : List String) (i : Nat) (d : String) (h : i < l.length) :
    l.getD i d ∈ l := by
  rw [List.getD_eq_getElem?_getD, List.getElem?_eq_getElem h]
  exact List.getElem_mem h

/-- Reading an option into an empty slot yields the environment value. -/
theorem read_option_str_none (v : Option String) : read_option_str v none = v := by
  cases v <;> rfl

/-- The reply scan returns `none` as soon as some own tweet replies to the
target, whatever message set is threaded through. -/
theorem choose_reply_loop_of_reply (tweet : Tweet) (l : List Tweet) (msgs : List String)
    (h : ∃ u ∈ l, u.in_reply_to_status_id = some tweet.id) :
    choose_reply_loop tweet l msgs = none := by
  induction l generalizing msgs with
  | nil => simp at h
  | cons a rest ih =>
    obtain ⟨u, hmem, hu⟩ := h
    rw [choose_reply_loop]
    by_cases ha : a.in_reply_to_status_id = some tweet.id
    · rw [if_pos ha]
    · rw [if_neg ha]
      apply ih
      rcases List.mem_cons.mp hmem with h1 | h1
      · exact absurd (h1 ▸ hu) ha
      · exact ⟨u, h1, hu⟩

/-- With no own reply present, re-filtering an already filtered message set
is the identity, so the scan returns the once-filtered set. -/
theorem choose_reply_loop_no_reply (tweet : Tweet) (l : List Tweet) (msgs : List String)
    (h : ∀ u ∈ l, u.in_reply_to_status_id ≠ some tweet.id) :
    choose_reply_loop tweet l (msgs.filter (fun x => !(pyIn x tweet.text))) =
      some (msgs.filter (fun x => !(pyIn x tweet.text))) := by
  induction l generalizing msgs with
  | nil => rfl
  | cons a rest ih =>
    rw [choose_reply_loop, if_neg (h a (List.mem_cons_self a rest))]
    have hff : (msgs.filter (fun x => !(pyIn x tweet.text))).filter
        (fun x => !(pyIn x tweet.text)) = msgs.filter (fun x => !(pyIn x tweet.text)) := by
      rw [List.filter_filter]
      exact List.filter_congr (fun x _ => Bool.and_self _)
    rw [hff]
    exact ih msgs (fun u hu => h u (List.mem_cons_of_mem a hu))

/-- With no own reply present, the scan over a nonempty own timeline returns
the narrowed message pool. -/
theorem choose_reply_loop_fresh (tweet : Tweet) (l : List Tweet)
    (hne : l ≠ []) (h : ∀ u ∈ l, u.in_reply_to_status_id ≠ some tweet.id) :
    choose_reply_loop tweet l MESSAGES = some (remaining_messages tweet) := by
  cases l with
  | nil => exact absurd rfl hne
  | cons a rest =>
    rw [choose_reply_loop, if_neg (h a (List.mem_cons_self a rest))]
    exact choose_reply_loop_no_reply tweet rest MESSAGES
      (fun u hu => h u (List.mem_cons_of_mem a hu))

/-- An own reply to the target makes `choose_reply` report «already replied». -/
theorem choose_reply_eq_already (tweet : Tweet) (mytweets : List Tweet) (r : Nat)
    (hne : mytweets ≠ []) (h : ∃ u ∈ mytweets, u.in_reply_to_status_id = some tweet.id) :
    choose_reply tweet mytweets r = .ok none := by
  rw [choose_reply, if_neg (by have := List.length_pos.mpr hne; omega),
    choose_reply_loop_of_reply tweet mytweets MESSAGES h]

/-- With no own reply and a nonempty narrowed pool, `choose_reply` draws the
`r`-th element (modulo the pool size) of the narrowed pool. -/
theorem choose_reply_eq_fresh (tweet : Tweet) (mytweets : List Tweet) (r : Nat)
    (hne : mytweets ≠ []) (h : ∀ u ∈ mytweets, u.in_reply_to_status_id ≠ some tweet.id)
    (hpool : remaining_messages tweet ≠ []) :
    choose_reply tweet mytweets r =
      .ok (some ((remaining_messages tweet).getD
        (r % (remaining_messages tweet).length) "")) := by
  rw [choose_reply, if_neg (by have := List.length_pos.mpr hne; omega),
    choose_reply_loop_fresh tweet mytweets hne h]
  simp [List.isEmpty_iff, hpool]

/-- With no own reply and an exhausted narrowed pool, `choose_reply` raises
the sampling error. -/
theorem choose_reply_eq_sample_error (tweet : Tweet) (mytweets : List Tweet) (r : Nat)
    (hne : mytweets ≠ []) (h : ∀ u ∈ mytweets, u.in_reply_to_status_id ≠ some tweet.id)
    (hpool : remaining_messages tweet = []) :
    choose_reply tweet mytweets r = .error .sampleError := by
  rw [choose_reply, if_neg (by have := List.length_pos.mpr hne; omega),
    choose_reply_loop_fresh tweet mytweets hne h]
  simp [hpool]

/-- No message of the pool is the empty string. -/
theorem messages_ne_empty : ∀ m ∈ MESSAGES, m ≠ "" := by decide

/-- The drawn message belongs to the narrowed pool. -/
theorem chosen_mem_remaining (tweet : Tweet) (r : Nat)
    (hpool : remaining_messages tweet ≠ []) :
    (remaining_messages tweet).getD (r % (remaining_messages tweet).length) "" ∈
      remaining_messages tweet :=
  getD_mem_of_lt _ _ _ (Nat.mod_lt _ (List.length_pos.mpr hpool))

/-! Claim theorems. -/

/-- C2 counterexample: the claim's first tier reads «'s second' when s < 1»,
which at s = 1 (1 < 1 being false, 1 < 120 true) demands the output
«1 seconds»; the code's first tier is `seconds < 2`, so `pretty_duration 1`
is «1 second», contradicting the claimed tier bounds. -/
theorem pretty_duration_one_not_plural :
    ¬((1 : Nat) < 1) ∧ (1 : Nat) < 120 ∧ pretty_duration 1 ≠ "1 seconds" ∧
      pretty_duration 1 = "1 second" := by
  refine ⟨by decide, by decide, by decide, rfl⟩

/-- C2 (amended): for every nonnegative integer s, `pretty_duration s` is
«s second» when s < 2, «s seconds» when 2 ≤ s < 120, «s // 60 minutes» when
s < 7200, «s // 3600 hours» when s < 172800, and «s // 86400 days»
otherwise, with truncating division at each tier; in particular it maps 1 to
«1 second», 90 to «90 seconds», 300 to «5 minutes», 10000 to «2 hours» and
200000 to «2 days». -/
theorem pretty_duration_tiers (s : Nat) :
    pretty_duration s =
      (if s < 2 then toString s ++ " second"
       else if s < 120 then toString s ++ " seconds"
       else if s < 7200 then toString (s / 60) ++ " minutes"
       else if s < 172800 then toString (s / 3600) ++ " hours"
       else toString (s / 86400) ++ " days")
    ∧ pretty_duration 1 = "1 second" ∧ pretty_duration 90 = "90 seconds"
    ∧ pretty_duration 300 = "5 minutes" ∧ pretty_duration 10000 = "2 hours"
    ∧ pretty_duration 200000 = "2 days" := by
  refine ⟨rfl, rfl, rfl, rfl, rfl, rfl⟩

/-- C4: the Candidate Selector returns the first fetched post (in the given
order) whose author handle equals the target, whose source tag equals the
expected source, that is not flagged as a reshare, and whose body contains
the literal substring «Alt/title text:»; it returns no candidate when no
post qualifies. -/
theorem get_latest_candidate_first_match (tweets : List Tweet) (target source : String) :
    get_latest_candidate_tweet tweets target source =
      tweets.find? (fun t => t.author_screen_name == target && t.source == source &&
        !(t.retweet_status.getD false) && pyIn "Alt/title text:" t.text)
    ∧ (get_latest_candidate_tweet tweets target source = none ↔
        ∀ t ∈ tweets, (t.author_screen_name == target && t.source == source &&
          !(t.retweet_status.getD false) && pyIn "Alt/title text:" t.text) = false) := by
  have main : get_latest_candidate_tweet tweets target source =
      tweets.find? (fun t => t.author_screen_name == target && t.source == source &&
        !(t.retweet_status.getD false) && pyIn "Alt/title text:" t.text) := by
    induction tweets with
    | nil => rfl
    | cons t rest ih =>
      by_cases h1 : t.author_screen_name = target <;>
        by_cases h2 : t.source = source <;>
          by_cases h3 : t.retweet_status.getD false = true <;>
            by_cases h4 : pyIn "Alt/title text:" t.text = true <;>
              simp [get_latest_candidate_tweet, List.find?_cons, h1, h2, h3, h4, ih]
  refine ⟨main, ?_⟩
  rw [main, List.find?_eq_none]
  constructor
  · intro h t ht
    simpa using h t ht
  · intro h t ht
    simp [h t ht]

/-- C7: on an empty own timeline the Reply Chooser raises the no-timeline
error before any reply decision, and the Reply Dispatcher propagates it,
returning no result record and submitting nothing. -/
theorem choose_reply_empty_timeline (tweet : Tweet) (r : Nat) (getStatus : Int → Tweet)
    (tweet_id : String) (n : Int) (dry_run : Bool) (hid : pyInt tweet_id = some n) :
    choose_reply tweet [] r = .error .noTimeline ∧
    reply_to_tweet getStatus [] r tweet_id dry_run = .error .noTimeline := by
  have h2 : choose_reply (getStatus n) [] r = .error .noTimeline := rfl
  refine ⟨rfl, ?_⟩
  rw [reply_to_tweet, hid]
  simp [h2]

/-- C7 witness. -/
theorem choose_reply_empty_timeline_witness :
    choose_reply ⟨5, "tgt", "hello", "src", none, none, 0⟩ [] 0 = .error .noTimeline ∧
    reply_to_tweet (fun _ => ⟨5, "tgt", "hello", "src", none, none, 0⟩) [] 0 "5" false =
      .error .noTimeline :=
  choose_reply_empty_timeline ⟨5, "tgt", "hello", "src", none, none, 0⟩ 0
    (fun _ => ⟨5, "tgt", "hello", "src", none, none, 0⟩) "5" 5 false rfl

/-- C6: given a nonempty own timeline, the Reply Chooser returns no reply
when some own post directly replies to the target post's id; otherwise, when
the narrowed pool is nonempty, it returns a message of the fixed Message Set
that does not occur verbatim inside the target post's body text. -/
theorem choose_reply_fresh_message (tweet : Tweet) (mytweets : List Tweet) (r : Nat)
    (hne : mytweets ≠ []) :
    ((∃ u ∈ mytweets, u.in_reply_to_status_id = some tweet.id) →
      choose_reply tweet mytweets r = .ok none)
    ∧ ((∀ u ∈ mytweets, u.in_reply_to_status_id ≠ some tweet.id) →
        remaining_messages tweet ≠ [] →
        ∃ m, choose_reply tweet mytweets r = .ok (some m) ∧ m ∈ MESSAGES ∧
          pyIn m tweet.text = false) := by
  refine ⟨fun h => choose_reply_eq_already tweet mytweets r hne h, fun h hpool => ?_⟩
  have hmem' : (remaining_messages tweet).getD (r % (remaining_messages tweet).length) "" ∈
      MESSAGES.filter (fun x => !(pyIn x tweet.text)) := chosen_mem_remaining tweet r hpool
  have hsplit := List.mem_filter.mp hmem'
  refine ⟨(remaining_messages tweet).getD (r % (remaining_messages tweet).length) "",
    choose_reply_eq_fresh tweet mytweets r hne h hpool, hsplit.1, by simpa using hsplit.2⟩

/-- C6 witness. -/
theorem choose_reply_fresh_message_witness :
    ((∃ u ∈ [(⟨6, "me", "hello", "s2", none, some 99, 0⟩ : Tweet)],
        u.in_reply_to_status_id = some (5 : Int)) →
      choose_reply ⟨5, "tgt", "Alt/title text: xyz", "src", none, none, 0⟩
        [⟨6, "me", "hello", "s2", none, some 99, 0⟩] 0 = .ok none)
    ∧ ((∀ u ∈ [(⟨6, "me", "hello", "s2", none, some 99, 0⟩ : Tweet)],
          u.in_reply_to_status_id ≠ some (5 : Int)) →
        remaining_messages ⟨5, "tgt", "Alt/title text: xyz", "src", none, none, 0⟩ ≠ [] →
        ∃ m, choose_reply ⟨5, "tgt", "Alt/title text: xyz", "src", none, none, 0⟩
            [⟨6, "me", "hello", "s2", none, some 99, 0⟩] 0 = .ok (some m) ∧
          m ∈ MESSAGES ∧
          pyIn m (Tweet.text ⟨5, "tgt", "Alt/title text: xyz", "src", none, none, 0⟩) = false) :=
  choose_reply_fresh_message ⟨5, "tgt", "Alt/title text: xyz", "src", none, none, 0⟩
    [⟨6, "me", "hello", "s2", none, some 99, 0⟩] 0 (by simp)

/-- C9: when every message of the Message Set occurs as a substring of the
target post's body and the nonempty own timeline contains no direct reply to
the target, the Reply Chooser fails with the empty-pool sampling error
rather than returning a message or a no-reply result. -/
theorem choose_reply_exhausted_pool (tweet : Tweet) (mytweets : List Tweet) (r : Nat)
    (hall : ∀ m ∈ MESSAGES, pyIn m tweet.text = true)
    (hne : mytweets ≠ [])
    (hnorep : ∀ u ∈ mytweets, u.in_reply_to_status_id ≠ some tweet.id) :
    choose_reply tweet mytweets r = .error .sampleError := by
  apply choose_reply_eq_sample_error tweet mytweets r hne hnorep
  rw [remaining_messages, List.filter_eq_nil_iff]
  intro m hm
  simp [hall m hm]

set_option maxRecDepth 100000 in
/-- C9 witness: a target text containing every message of the pool. -/
theorem choose_reply_exhausted_pool_witness :
    choose_reply ⟨5, "tgt", String.join MESSAGES, "src", none, none, 0⟩
      [⟨6, "me", "hello", "s2", none, some 99, 0⟩] 0 = .error .sampleError :=
  choose_reply_exhausted_pool ⟨5, "tgt", String.join MESSAGES, "src", none, none, 0⟩
    [⟨6, "me", "hello", "s2", none, some 99, 0⟩] 0 (by decide) (by simp) (by decide)

/-- C5: the elapsed time the Age Gate works with is now minus the creation
time (interpreted as UTC) clamped to zero, and — given a selected candidate
for which the Reply Chooser would produce a reply — the candidate is
rejected if and only if that elapsed time strictly exceeds maxage*60
seconds; at exactly maxage*60 seconds it is kept. -/
theorem age_gate_boundary (tweets mytweets : List Tweet) (target source : String)
    (maxage now : Int) (r : Nat) (t : Tweet)
    (hcand : get_latest_candidate_tweet tweets target source = some t)
    (hne : mytweets ≠ [])
    (hnorep : ∀ u ∈ mytweets, u.in_reply_to_status_id ≠ some t.id)
    (hpool : remaining_messages t ≠ []) :
    time_since_tweet t now = max (now - t.created_at) 0
    ∧ (choose_candidate_tweet tweets mytweets target source maxage now r = .ok none
        ↔ time_since_tweet t now > maxage * 60)
    ∧ (time_since_tweet t now ≤ maxage * 60 →
        choose_candidate_tweet tweets mytweets target source maxage now r = .ok (some t)) := by
  have hmax : time_since_tweet t now = max (now - t.created_at) 0 := by
    rw [time_since_tweet]
    split
    · exact (max_eq_right (by omega)).symm
    · exact (max_eq_left (by omega)).symm
  have hchoose := choose_reply_eq_fresh t mytweets r hne hnorep hpool
  have hmem' : (remaining_messages t).getD (r % (remaining_messages t).length) "" ∈
      MESSAGES.filter (fun x => !(pyIn x t.text)) := chosen_mem_remaining t r hpool
  have hmne : (remaining_messages t).getD (r % (remaining_messages t).length) "" ≠ "" :=
    messages_ne_empty _ (List.mem_filter.mp hmem').1
  refine ⟨hmax, ?_, ?_⟩
  · by_cases hage : maxage * 60 < time_since_tweet t now
    · simp only [choose_candidate_tweet, hcand, if_pos hage]
      simpa using hage
    · simp only [choose_candidate_tweet, hcand, if_neg hage, hchoose]
      rw [if_neg hmne]
      simp [hage]
  · intro hle
    simp only [choose_candidate_tweet, hcand, if_neg (by omega : ¬maxage * 60 < time_since_tweet t now), hchoose]
    rw [if_neg hmne]

/-- C5 witness: a candidate created exactly maxage*60 seconds before now. -/
theorem age_gate_boundary_witness :
    time_since_tweet ⟨5, "tgt", "Alt/title text: xyz", "src", none, none, 0⟩ 21600 =
      max ((21600 : Int) - 0) 0
    ∧ (choose_candidate_tweet [⟨5, "tgt", "Alt/title text: xyz", "src", none, none, 0⟩]
          [⟨6, "me", "hello", "s2", none, some 99, 0⟩] "tgt" "src" 360 21600 0 = .ok none
        ↔ time_since_tweet ⟨5, "tgt", "Alt/title text: xyz", "src", none, none, 0⟩ 21600 >
            360 * 60)
    ∧ (time_since_tweet ⟨5, "tgt", "Alt/title text: xyz", "src", none, none, 0⟩ 21600 ≤
          360 * 60 →
        choose_candidate_tweet [⟨5, "tgt", "Alt/title text: xyz", "src", none, none, 0⟩]
          [⟨6, "me", "hello", "s2", none, some 99, 0⟩] "tgt" "src" 360 21600 0 =
          .ok (some ⟨5, "tgt", "Alt/title text: xyz", "src", none, none, 0⟩)) :=
  age_gate_boundary [⟨5, "tgt", "Alt/title text: xyz", "src", none, none, 0⟩]
    [⟨6, "me", "hello", "s2", none, some 99, 0⟩] "tgt" "src" 360 21600 0
    ⟨5, "tgt", "Alt/title text: xyz", "src", none, none, 0⟩
    (by decide) (by simp) (by decide) (by decide)

/-- C1 counterexample: with the dry-run flag set and the chooser picking
«Admirable bot.», the dispatcher submits nothing but its result record
carries no reply text (reply_tweet is none), contradicting the claim that
the result contains the chosen reply text. -/
theorem reply_to_tweet_dry_run_counterexample :
    choose_reply ⟨5, "tgt", "Alt/title text: xyz", "src", none, none, 0⟩
      [⟨6, "me", "hello", "s2", none, some 99, 0⟩] 0 = .ok (some "Admirable bot.")
    ∧ reply_to_tweet (fun _ => ⟨5, "tgt", "Alt/title text: xyz", "src", none, none, 0⟩)
        [⟨6, "me", "hello", "s2", none, some 99, 0⟩] 0 "5" true =
      .ok (⟨"5", true, none⟩, []) :=
  ⟨rfl, rfl⟩

/-- C1 (amended): for every dry-run direct-reply invocation where the Reply
Chooser returns a (nonempty) message, the dispatcher never calls the
status-submission API; the chosen text is computed and logged but the
returned result record contains only the post id and the dry-run flag — the
reply-text entry is added only when a reply is actually sent. -/
theorem reply_to_tweet_dry_run_no_submission (getStatus : Int → Tweet)
    (mytweets : List Tweet) (r : Nat) (tweet_id : String) (n : Int) (m : String)
    (hid : pyInt tweet_id = some n)
    (hm : choose_reply (getStatus n) mytweets r = .ok (some m))
    (hne : m ≠ "") :
    reply_to_tweet getStatus mytweets r tweet_id true = .ok (⟨tweet_id, true, none⟩, []) := by
  simp only [reply_to_tweet, hid, hm]
  rw [if_neg hne]
  simp

/-- C1 witness. -/
theorem reply_to_tweet_dry_run_no_submission_witness :
    reply_to_tweet (fun _ => ⟨5, "tgt", "Alt/title text: xyz", "src", none, none, 0⟩)
      [⟨6, "me", "hello", "s2", none, some 99, 0⟩] 0 "5" true =
      .ok (⟨"5", true, none⟩, []) :=
  reply_to_tweet_dry_run_no_submission
    (fun _ => ⟨5, "tgt", "Alt/title text: xyz", "src", none, none, 0⟩)
    [⟨6, "me", "hello", "s2", none, some 99, 0⟩] 0 "5" 5 "Admirable bot."
    rfl rfl (by decide)

/-- Membership in a conditional singleton list. -/
theorem mem_ite_single {α : Type} (p : Prop) [Decidable p] (a b : α) :
    (a ∈ if p then [b] else []) ↔ (p ∧ a = b) := by
  split <;> simp_all

/-- Membership characterization of the missing-key list: each external key
appears exactly when its config entry is absent. -/
theorem missing_options_spec (c : Config) :
    ("BOT_APP_KEY" ∈ missing_options c ↔ c.app_key = none)
    ∧ ("BOT_APP_SECRET" ∈ missing_options c ↔ c.app_secret = none)
    ∧ ("BOT_ACCESS_TOKEN" ∈ missing_options c ↔ c.access_token = none)
    ∧ ("BOT_TOKEN_SECRET" ∈ missing_options c ↔ c.token_secret = none)
    ∧ ("BOT_TARGET" ∈ missing_options c ↔ c.target = none)
    ∧ ("BOT_SOURCE" ∈ missing_options c ↔ c.source = none)
    ∧ ("BOT_MAXAGE" ∈ missing_options c ↔ c.maxage = none) := by
  refine ⟨?_, ?_, ?_, ?_, ?_, ?_, ?_⟩ <;>
    simp [missing_options, mem_ite_single, List.mem_append]

/-- Shape of a `load_configuration` run on the empty initial dict: the read
values land in the config, the defaulted maxage is always present, and the
outcome is decided by the missing-key list. -/
theorem load_configuration_shape (e : Environ)
    (hmax : ∀ v, e.bot_maxage = some v → (pyInt v).isSome = true) :
    ∃ m' : Int,
      load_configuration e emptyConfig =
        (if missing_options ⟨e.bot_app_key, e.bot_app_secret, e.bot_access_token,
            e.bot_token_secret, e.bot_target, e.bot_source, some m'⟩ = []
         then .ok ⟨e.bot_app_key, e.bot_app_secret, e.bot_access_token,
            e.bot_token_secret, e.bot_target, e.bot_source, some m'⟩
         else .error (.configurationError (missing_options ⟨e.bot_app_key, e.bot_app_secret,
            e.bot_access_token, e.bot_token_secret, e.bot_target, e.bot_source, some m'⟩))) := by
  cases hv : e.bot_maxage with
  | none =>
    refine ⟨DEFAULT_MAXAGE, ?_⟩
    simp [load_configuration, read_options, hv, read_option_str_none, emptyConfig, set_defaults]
  | some v =>
    obtain ⟨n, hn⟩ := Option.isSome_iff_exists.mp (hmax v hv)
    by_cases h0 : n = 0
    · refine ⟨DEFAULT_MAXAGE, ?_⟩
      simp [load_configuration, read_options, hv, hn, h0, read_option_str_none, emptyConfig,
        set_defaults]
    · refine ⟨n, ?_⟩
      simp [load_configuration, read_options, hv, hn, read_option_str_none, emptyConfig,
        set_defaults, h0]

/-- C3: whenever a required key cannot be resolved from the environment
(after the maxage default, which always resolves BOT_MAXAGE),
`load_configuration` fails with a Configuration error whose missing-key list
contains exactly the missing external keys — every one of them, not just the
first — and when none is missing it returns the settings record without
error. -/
theorem load_configuration_reports_all_missing (e : Environ)
    (hmax : ∀ v, e.bot_maxage = some v → (pyInt v).isSome = true) :
    (∀ missing, load_configuration e emptyConfig = .error (.configurationError missing) →
      (("BOT_APP_KEY" ∈ missing ↔ e.bot_app_key = none)
       ∧ ("BOT_APP_SECRET" ∈ missing ↔ e.bot_app_secret = none)
       ∧ ("BOT_ACCESS_TOKEN" ∈ missing ↔ e.bot_access_token = none)
       ∧ ("BOT_TOKEN_SECRET" ∈ missing ↔ e.bot_token_secret = none)
       ∧ ("BOT_TARGET" ∈ missing ↔ e.bot_target = none)
       ∧ ("BOT_SOURCE" ∈ missing ↔ e.bot_source = none)
       ∧ "BOT_MAXAGE" ∉ missing))
    ∧ ((e.bot_app_key = none ∨ e.bot_app_secret = none ∨ e.bot_access_token = none
        ∨ e.bot_token_secret = none ∨ e.bot_target = none ∨ e.bot_source = none) →
        ∃ missing, missing ≠ [] ∧
          load_configuration e emptyConfig = .error (.configurationError missing))
    ∧ ((e.bot_app_key ≠ none ∧ e.bot_app_secret ≠ none ∧ e.bot_access_token ≠ none
        ∧ e.bot_token_secret ≠ none ∧ e.bot_target ≠ none ∧ e.bot_source ≠ none) →
        ∃ c, load_configuration e emptyConfig = .ok c) := by
  obtain ⟨m', hload⟩ := load_configuration_shape e hmax
  obtain ⟨h1, h2, h3, h4, h5, h6, h7⟩ := missing_options_spec
    ⟨e.bot_app_key, e.bot_app_secret, e.bot_access_token, e.bot_token_secret,
     e.bot_target, e.bot_source, some m'⟩
  refine ⟨?_, ?_, ?_⟩
  · intro missing hmiss
    rw [hload] at hmiss
    by_cases hnil : missing_options ⟨e.bot_app_key, e.bot_app_secret, e.bot_access_token,
        e.bot_token_secret, e.bot_target, e.bot_source, some m'⟩ = []
    · rw [if_pos hnil] at hmiss
      simp at hmiss
    · rw [if_neg hnil] at hmiss
      have hmm : missing = missing_options ⟨e.bot_app_key, e.bot_app_secret,
          e.bot_access_token, e.bot_token_secret, e.bot_target, e.bot_source, some m'⟩ := by
        simp only [Except.error.injEq, BotError.configurationError.injEq] at hmiss
        exact hmiss.symm
      subst hmm
      exact ⟨h1, h2, h3, h4, h5, h6, fun hmm2 => by simpa using h7.mp hmm2⟩
  · intro hdisj
    have hnn : missing_options ⟨e.bot_app_key, e.bot_app_secret, e.bot_access_token,
        e.bot_token_secret, e.bot_target, e.bot_source, some m'⟩ ≠ [] := by
      rcases hdisj with h | h | h | h | h | h
      · exact List.ne_nil_of_mem (h1.mpr h)
      · exact List.ne_nil_of_mem (h2.mpr h)
      · exact List.ne_nil_of_mem (h3.mpr h)
      · exact List.ne_nil_of_mem (h4.mpr h)
      · exact List.ne_nil_of_mem (h5.mpr h)
      · exact List.ne_nil_of_mem (h6.mpr h)
    exact ⟨_, hnn, by rw [hload, if_neg hnn]⟩
  · intro hall
    obtain ⟨n1, n2, n3, n4, n5, n6⟩ := hall
    have hnil : missing_options ⟨e.bot_app_key, e.bot_app_secret, e.bot_access_token,
        e.bot_token_secret, e.bot_target, e.bot_source, some m'⟩ = [] := by
      simp [missing_options, n1, n2, n3, n4, n5, n6]
    exact ⟨_, by rw [hload, if_pos hnil]⟩

/-- C3 witness: with every variable unset, loading fails with a nonempty
missing-key list. -/
theorem load_configuration_reports_all_missing_witness :
    ∃ missing, missing ≠ [] ∧
      load_configuration ⟨none, none, none, none, none, none, none⟩ emptyConfig =
        .error (.configurationError missing) :=
  (load_configuration_reports_all_missing ⟨none, none, none, none, none, none, none⟩
    (fun _ hv => by simp at hv)).2.1 (Or.inl rfl)

/-- C8: when BOT_MAXAGE is unset and every other required variable is
present, `load_configuration` succeeds and the resolved maximum age is 360
minutes. -/
theorem load_configuration_maxage_default (e : Environ) (k s a t g c : String)
    (h1 : e.bot_app_key = some k) (h2 : e.bot_app_secret = some s)
    (h3 : e.bot_access_token = some a) (h4 : e.bot_token_secret = some t)
    (h5 : e.bot_target = some g) (h6 : e.bot_source = some c)
    (h7 : e.bot_maxage = none) :
    load_configuration e emptyConfig =
      .ok ⟨some k, some s, some a, some t, some g, some c, some 360⟩ := by
  have hread : read_options e emptyConfig =
      some ⟨some k, some s, some a, some t, some g, some c, none⟩ := by
    simp [read_options, emptyConfig, read_option_str, h1, h2, h3, h4, h5, h6, h7]
  have hdef : set_defaults ⟨some k, some s, some a, some t, some g, some c, none⟩ =
      ⟨some k, some s, some a, some t, some g, some c, some 360⟩ := by
    norm_num [set_defaults, DEFAULT_MAXAGE]
  have hmiss : missing_options ⟨some k, some s, some a, some t, some g, some c, some 360⟩ =
      [] := by
    simp [missing_options, Option.some_ne_none]
  simp [load_configuration, hread, hdef, hmiss]

/-- C8 witness. -/
theorem load_configuration_maxage_default_witness :
    load_configuration ⟨some "k", some "s", some "a", some "t", some "g", some "c", none⟩
      emptyConfig =
      .ok ⟨some "k", some "s", some "a", some "t", some "g", some "c", some 360⟩ :=
  load_configuration_maxage_default ⟨some "k", some "s", some "a", some "t", some "g",
    some "c", none⟩ "k" "s" "a" "t" "g" "c" rfl rfl rfl rfl rfl rfl rfl

/-- C10: when BOT_MAXAGE is set to the string «0» and every other required
variable is present, `load_configuration` succeeds and the resolved maximum
age is 360 minutes, not 0: the defaulting step replaces any falsy maxage
value, so an explicitly configured zero maximum age is not honored. -/
theorem load_configuration_maxage_zero_defaulted (e : Environ) (k s a t g c : String)
    (h1 : e.bot_app_key = some k) (h2 : e.bot_app_secret = some s)
    (h3 : e.bot_access_token = some a) (h4 : e.bot_token_secret = some t)
    (h5 : e.bot_target = some g) (h6 : e.bot_source = some c)
    (h7 : e.bot_maxage = some "0") :
    load_configuration e emptyConfig =
      .ok ⟨some k, some s, some a, some t, some g, some c, some 360⟩ := by
  have hz : pyInt "0" = some 0 := rfl
  have hread : read_options e emptyConfig =
      some ⟨some k, some s, some a, some t, some g, some c, some 0⟩ := by
    simp [read_options, emptyConfig, read_option_str, h1, h2, h3, h4, h5, h6, h7, hz]
  have hdef : set_defaults ⟨some k, some s, some a, some t, some g, some c, some 0⟩ =
      ⟨some k, some s, some a, some t, some g, some c, some 360⟩ := by
    norm_num [set_defaults, DEFAULT_MAXAGE]
  have hmiss : missing_options ⟨some k, some s, some a, some t, some g, some c, some 360⟩ =
      [] := by
    simp [missing_options, Option.some_ne_none]
  simp [load_configuration, hread, hdef, hmiss]

/-- C10 witness. -/
theorem load_configuration_maxage_zero_defaulted_witness :
    load_configuration ⟨some "k", some "s", some "a", some "t", some "g", some "c", some "0"⟩
      emptyConfig =
      .ok ⟨some "k", some "s", some "a", some "t", some "g", some "c", some 360⟩ :=
  load_configuration_maxage_zero_defaulted ⟨some "k", some "s", some "a", some "t", some "g",
    some "c", some "0"⟩ "k" "s" "a" "t" "g" "c" rfl rfl rfl rfl rfl rfl rfl
